import Mathlib

/-!
Verification development for the snowflake-declarative schema-migration
safety and recovery engine.  The Python sources under `scripts/` are shallowly
embedded here: regex scanning is modelled by an executable backtracking
matcher over `List Char` (mirroring Python `re` semantics for the concrete
patterns the scripts use), database access is modelled by explicit catalog
functions, and `sys.exit` / exceptions are modelled with `Except`.
-/

namespace SnowflakeDecl

/-! ### Character classes of Python `re` (ASCII, as used by the scripts) -/

/-- Python `\s` over the ASCII range: space, tab, newline, carriage return,
vertical tab, form feed. -/
def pySpace (c : Char) : Bool :=
  c == ' ' || c == '\t' || c == '\n' || c == '\r' || c == '\x0b' || c == '\x0c'

/-- Python `\w` over the ASCII range: letters, digits, underscore. -/
def pyWord (c : Char) : Bool :=
  c.isAlpha || c.isDigit || c == '_'

/-- Python `str.upper()` for the ASCII identifiers these scripts handle
(uppercases character by character; structurally recursive so that concrete
runs evaluate inside the kernel). -/
def pyUpper (s : String) : String :=
  String.mk (s.data.map Char.toUpper)

/-- Split a character list on a separator character; Python
`str.split(sep)` semantics (`"" ↦ [""]`, separators at the ends produce
empty pieces). -/
def splitOnChar (sep : Char) : List Char → List (List Char)
  | [] => [[]]
  | c :: rest =>
    if c == sep then [] :: splitOnChar sep rest
    else
      match splitOnChar sep rest with
      | g :: gs => (c :: g) :: gs
      | [] => [[c]]

/-- Join character lists with `.` between them (used to model Python
`split('.', 1)`, whose second piece keeps its inner dots). -/
def joinDot : List (List Char) → List Char
  | [] => []
  | [x] => x
  | x :: xs => x ++ '.' :: joinDot xs

/-- Consume a literal keyword case-insensitively (re.IGNORECASE); returns the
rest of the input on success. A literal space in the keyword matches exactly
one space. -/
def eatCI : List Char → List Char → Option (List Char)
  | [], s => some s
  | _ :: _, [] => none
  | k :: ks, c :: cs => if k.toUpper == c.toUpper then eatCI ks cs else none

/-- Consume a literal string case-sensitively (Python `in` on `str`). -/
def eatExact : List Char → List Char → Option (List Char)
  | [], s => some s
  | _ :: _, [] => none
  | k :: ks, c :: cs => if k == c then eatExact ks cs else none

/-- Does `needle` occur (case-sensitively) anywhere in `hay`?  Models Python
`needle in hay` for strings. -/
def occursSub (needle : List Char) : List Char → Bool
  | [] => (eatExact needle []).isSome
  | c :: rest => (eatExact needle (c :: rest)).isSome || occursSub needle rest

/-- Does `needle` occur case-insensitively anywhere in `hay`? -/
def occursCI (needle : List Char) : List Char → Bool
  | [] => (eatCI needle []).isSome
  | c :: rest => (eatCI needle (c :: rest)).isSome || occursCI needle rest

/-- Python `needle in hay` on `String`s. -/
def strContains (hay needle : String) : Bool :=
  occursSub needle.toList hay.toList

/-! ### A small regex engine for the patterns used by the scripts

Each pattern the scripts compile is a sequence of: case-insensitive literal
keywords, `\s+` runs, an optional `IF\s+EXISTS\s+` style group, greedy
captures `([class]+)`, and captured alternations of literals.  The matcher
below implements leftmost matching with backtracking, exactly the semantics
`re.finditer` / `re.findall` give these patterns. -/

inductive RItem where
  | kw : List Char → RItem
  | sp : RItem
  | opt : List RItem → RItem
  | cap : (Char → Bool) → RItem
  | alt : List (List Char) → RItem

/-- Fuel for the matcher.  Each recursion step of `matchItems` removes one
item (an optional group is replaced by its contents), so the recursion depth
is bounded by the total item count including optional-group contents,
independently of the subject string; the largest pattern in this file totals
21 items, so this bound never cuts a match short. -/
def matcherFuel : Nat := 64

/-- Match an item sequence against a prefix of `s`, accumulating captured
groups in order.  Greedy quantifiers try the longest consumption first and
backtrack on failure of the continuation, as Python `re` does. -/
def matchItems : Nat → List RItem → List Char → List String → Option (List String × List Char)
  | 0, _, _, _ => none
  | _ + 1, [], s, acc => some (acc, s)
  | f + 1, .kw w :: rest, s, acc =>
    match eatCI w s with
    | some s₁ => matchItems f rest s₁ acc
    | none => none
  | f + 1, .sp :: rest, s, acc =>
    let n := (s.takeWhile pySpace).length
    if n == 0 then none
    else (List.range n).findSome? fun i => matchItems f rest (s.drop (n - i)) acc
  | f + 1, .opt sub :: rest, s, acc =>
    match matchItems f (sub ++ rest) s acc with
    | some r => some r
    | none => matchItems f rest s acc
  | f + 1, .cap p :: rest, s, acc =>
    let n := (s.takeWhile p).length
    if n == 0 then none
    else (List.range n).findSome? fun i =>
      matchItems f rest (s.drop (n - i)) (acc ++ [String.mk (s.take (n - i))])
  | f + 1, .alt alts :: rest, s, acc =>
    alts.findSome? fun w =>
      match eatCI w s with
      | some s₁ => matchItems f rest s₁ (acc ++ [String.mk w])
      | none => none

/-- A compiled pattern: whether it starts with `\b` (all the scripts' `\b`s
are immediately followed by a mandatory word character), and its items. -/
structure RPattern where
  boundary : Bool
  items : List RItem

/-- Is the previous character a word character?  `\b` before a word character
holds iff the previous character is absent or not a word character. -/
def prevIsWord : Option Char → Bool
  | none => false
  | some c => pyWord c

/-- Try to match `p` at the current position (`prev` is the character before
that position, for `\b`). -/
def matchHere (p : RPattern) (prev : Option Char) (s : List Char) :
    Option (List String × List Char) :=
  if p.boundary && prevIsWord prev then none
  else matchItems matcherFuel p.items s []

/-- Scan forward looking for successive non-overlapping matches, as
`re.finditer` does: try each position left to right; on a match, emit its
captures and continue at the match end. -/
def scanFrom (p : RPattern) : Nat → Option Char → List Char → List (List String)
  | 0, _, _ => []
  | _ + 1, _, [] => []
  | f + 1, prev, c :: rest =>
    match matchHere p prev (c :: rest) with
    | some (caps, s₁) =>
      caps :: scanFrom p f (((c :: rest).take ((c :: rest).length - s₁.length)).getLast?) s₁
    | none => scanFrom p f (some c) rest

/-- All matches of `p` in `s`, each as its list of captured groups.
Models both `re.finditer` (reading `match.group(i)`) and `re.findall`. -/
def finditer (p : RPattern) (s : List Char) : List (List String) :=
  scanFrom p s.length none s

/-- `re.findall` returns the same matches/groups as `re.finditer`. -/
def findall (p : RPattern) (s : List Char) : List (List String) :=
  finditer p s

/-! ### `scripts/dependency_checker.py` — destructive-pattern table -/

/-- Capture class `[^\s;]+`. -/
def capNoSpaceSemi (c : Char) : Bool := !(pySpace c) && c != ';'

/-- Capture class `[^\s(;]+`. -/
def capNoSpaceParenSemi (c : Char) : Bool := !(pySpace c) && c != '(' && c != ';'

/-- Capture class `[^\s]+` (`\S+`). -/
def capNoSpace (c : Char) : Bool := !(pySpace c)

/-- `\bDROP\s+TABLE\s+(?:IF\s+EXISTS\s+)?([^\s;]+)` -/
def reDropTable : RPattern :=
  ⟨true, [.kw "DROP".toList, .sp, .kw "TABLE".toList, .sp,
          .opt [.kw "IF".toList, .sp, .kw "EXISTS".toList, .sp],
          .cap capNoSpaceSemi]⟩

/-- `\bTRUNCATE\s+TABLE\s+(?:IF\s+EXISTS\s+)?([^\s;]+)` -/
def reTruncateTable : RPattern :=
  ⟨true, [.kw "TRUNCATE".toList, .sp, .kw "TABLE".toList, .sp,
          .opt [.kw "IF".toList, .sp, .kw "EXISTS".toList, .sp],
          .cap capNoSpaceSemi]⟩

/-- `\bDROP\s+VIEW\s+(?:IF\s+EXISTS\s+)?([^\s;]+)` -/
def reDropView : RPattern :=
  ⟨true, [.kw "DROP".toList, .sp, .kw "VIEW".toList, .sp,
          .opt [.kw "IF".toList, .sp, .kw "EXISTS".toList, .sp],
          .cap capNoSpaceSemi]⟩

/-- `\bDROP\s+FUNCTION\s+(?:IF\s+EXISTS\s+)?([^\s(;]+)` -/
def reDropFunction : RPattern :=
  ⟨true, [.kw "DROP".toList, .sp, .kw "FUNCTION".toList, .sp,
          .opt [.kw "IF".toList, .sp, .kw "EXISTS".toList, .sp],
          .cap capNoSpaceParenSemi]⟩

/-- `\bDROP\s+PROCEDURE\s+(?:IF\s+EXISTS\s+)?([^\s(;]+)` -/
def reDropProcedure : RPattern :=
  ⟨true, [.kw "DROP".toList, .sp, .kw "PROCEDURE".toList, .sp,
          .opt [.kw "IF".toList, .sp, .kw "EXISTS".toList, .sp],
          .cap capNoSpaceParenSemi]⟩

/-- `\bDROP\s+STAGE\s+(?:IF\s+EXISTS\s+)?([^\s;]+)` -/
def reDropStage : RPattern :=
  ⟨true, [.kw "DROP".toList, .sp, .kw "STAGE".toList, .sp,
          .opt [.kw "IF".toList, .sp, .kw "EXISTS".toList, .sp],
          .cap capNoSpaceSemi]⟩

/-- `\bDROP\s+FILE\s+FORMAT\s+(?:IF\s+EXISTS\s+)?([^\s;]+)` -/
def reDropFileFormat : RPattern :=
  ⟨true, [.kw "DROP".toList, .sp, .kw "FILE".toList, .sp, .kw "FORMAT".toList, .sp,
          .opt [.kw "IF".toList, .sp, .kw "EXISTS".toList, .sp],
          .cap capNoSpaceSemi]⟩

/-- `\bDROP\s+SEQUENCE\s+(?:IF\s+EXISTS\s+)?([^\s;]+)` -/
def reDropSequence : RPattern :=
  ⟨true, [.kw "DROP".toList, .sp, .kw "SEQUENCE".toList, .sp,
          .opt [.kw "IF".toList, .sp, .kw "EXISTS".toList, .sp],
          .cap capNoSpaceSemi]⟩

/-- `\bALTER\s+TABLE\s+(?:IF\s+EXISTS\s+)?([^\s]+)\s+DROP\s+COLUMN\s+([^\s;]+)` -/
def reAlterTableDropColumn : RPattern :=
  ⟨true, [.kw "ALTER".toList, .sp, .kw "TABLE".toList, .sp,
          .opt [.kw "IF".toList, .sp, .kw "EXISTS".toList, .sp],
          .cap capNoSpace, .sp, .kw "DROP".toList, .sp, .kw "COLUMN".toList, .sp,
          .cap capNoSpaceSemi]⟩

/-- `DESTRUCTIVE_PATTERNS`, in source order (Python dicts preserve insertion
order, which fixes the order of scanned events). -/
def destructivePatterns : List (String × List RPattern) :=
  [("TABLE", [reDropTable, reTruncateTable]),
   ("VIEW", [reDropView]),
   ("FUNCTION", [reDropFunction]),
   ("PROCEDURE", [reDropProcedure]),
   ("STAGE", [reDropStage]),
   ("FILE FORMAT", [reDropFileFormat]),
   ("SEQUENCE", [reDropSequence]),
   ("ALTER_TABLE_DROP_COLUMN", [reAlterTableDropColumn])]

/-- The triple loop of `main` step 1: for every domain, for every regex of
that domain, for every match, one event `(object_domain, unparsed_name)`;
`ALTER_TABLE_DROP_COLUMN` events are recorded against the `TABLE` domain and
`match.group(1)` (the table). -/
def scanSql (sql : List Char) : List (String × String) :=
  destructivePatterns.flatMap fun dp =>
    dp.2.flatMap fun r =>
      (finditer r sql).map fun caps =>
        ((if dp.1 == "ALTER_TABLE_DROP_COLUMN" then "TABLE" else dp.1), caps.headD "")

/-! ### `scripts/dependency_checker.py` — identifier resolution -/

/-- `parse_fully_qualified_name(name_str, default_db, default_schema)`:
uppercase, strip double quotes (`replace('"', '')` of a one-character needle
is removal, modelled by a filter), split on `.`; 3 parts pass through, 2
parts get the default database, 1 part additionally needs a default schema.
The Python `(None, None, None)` returns are modelled as `none`; Python's
falsy test `if not default_schema` also treats an empty string as absent. -/
def parse_fully_qualified_name (name_str default_db : String)
    (default_schema : Option String) : Option (String × String × String) :=
  match (splitOnChar '.' (((pyUpper name_str).data).filter (fun c => c != '"'))).map String.mk with
  | [a, b, c] => some (a, b, c)
  | [a, b] => some (default_db, a, b)
  | [a] =>
    if default_schema.getD "" == "" then none
    else some (default_db, default_schema.getD "", a)
  | _ => none

/-- One backtracking step of `SCHEMA_FROM_FILENAME_RE.search`: `t` is the text
directly after a `__`;  the capture `([a-zA-Z0-9_]+)` greedily takes the
longest word-character run that is still followed by `__`. -/
def schemaCaptureAt (t : List Char) : Option (List Char) :=
  let w := t.takeWhile pyWord
  (List.range w.length).findSome? fun i =>
    let k := w.length - i
    if ("__".toList).isPrefixOf (t.drop k) then some (t.take k) else none

/-- `re.search` for `__([a-zA-Z0-9_]+)__`: try each start position left to
right. -/
def searchSchemaMarker : Nat → List Char → Option (List Char)
  | 0, _ => none
  | _ + 1, [] => none
  | f + 1, c :: rest =>
    if ("__".toList).isPrefixOf (c :: rest) then
      match schemaCaptureAt rest.tail with
      | some cap => some cap
      | none => searchSchemaMarker f rest
    else searchSchemaMarker f rest

/-- Schema extracted from a migration filename (`V1__MYSCHEMA__desc.sql`
style), or `none` when the filename carries no such marker. -/
def schemaFromFilename (fname : String) : Option String :=
  (searchSchemaMarker fname.toList.length fname.toList).map String.mk

/-! ### `scripts/dependency_checker.py` — step 1: collecting impacted objects -/

/-- A key of the `impacted_objects` dict: `(object_domain, db, schema, name)`. -/
structure ObjKey where
  domain : String
  db : String
  schema : String
  name : String
deriving DecidableEq

/-- The fatal error printed when an object name cannot be fully qualified:
`❌ Could not fully qualify object name '<literal>' from file '<file>'.`
followed by `sys.exit(1)`. -/
structure QualifyError where
  file : String
  literal : String
deriving DecidableEq

/-- Handle one scanned event `(object_domain, unparsed_name)`: resolve the
name, aborting the run (`sys.exit(1)`, modelled by `Except.error`) unless all
three components are present and non-empty (`if not all([db, schema, name])`). -/
def qualifyEvent (target_db fname : String) (default_schema : Option String)
    (ev : String × String) : Except QualifyError ObjKey :=
  match parse_fully_qualified_name ev.2 (pyUpper target_db) default_schema with
  | some (db, schema, name) =>
    if db == "" || schema == "" || name == "" then .error ⟨fname, ev.2⟩
    else .ok ⟨ev.1, db, schema, name⟩
  | none => .error ⟨fname, ev.2⟩

/-- The per-event loop body applied down an event list, stopping at the first
fatal resolution error exactly as the script's `sys.exit(1)` does. -/
def qualifyEvents (target_db fname : String) (default_schema : Option String) :
    List (String × String) → Except QualifyError (List ObjKey)
  | [] => .ok []
  | ev :: rest =>
    match qualifyEvent target_db fname default_schema ev with
    | .error e => .error e
    | .ok k =>
      match qualifyEvents target_db fname default_schema rest with
      | .error e => .error e
      | .ok ks => .ok (k :: ks)

/-- Scan one SQL file and qualify every destructive event in it.  The default
schema comes from the filename marker (`schema_match.group(1).upper()`). -/
def collectImpactedFromFile (target_db fname : String) (sql : List Char) :
    Except QualifyError (List ObjKey) :=
  qualifyEvents target_db fname ((schemaFromFilename fname).map pyUpper)
    (scanSql sql)

/-- Exit status of the scan phase: a qualification failure is `sys.exit(1)`;
otherwise the run continues (no exit yet). -/
def scanExitCode (r : Except QualifyError (List ObjKey)) : Option Nat :=
  match r with
  | .error _ => some 1
  | .ok _ => none

/-! ### `scripts/dependency_checker.py` — step 2: dependency queries -/

/-- One row fetched from `OBJECT_DEPENDENCIES` (the `WHERE` clause already
excluded self-references catalog-side): referencing database, schema, object
name, object domain, in `SELECT` order. -/
structure DepRow where
  db : String
  schema : String
  name : String
  domain : String
deriving DecidableEq

/-- Outcome of `cur.execute(query); cur.fetchall()` for one impacted object:
either the fetched rows, or a `ProgrammingError` carrying its message. -/
inductive QueryOutcome where
  | ok (rows : List DepRow)
  | progError (msg : String)

/-- An entry of `blocking_dependencies`, with the four fields the script
stores. -/
structure Dependency where
  dropped_domain : String
  dropped_name : String
  dependent_domain : String
  dependent_name : String
deriving DecidableEq

/-- Build the `blocking_dependencies` entry for one fetched row. -/
def dependencyOfRow (k : ObjKey) (r : DepRow) : Dependency :=
  { dropped_domain := k.domain
    dropped_name := k.db ++ "." ++ k.schema ++ "." ++ k.name
    dependent_domain := r.domain
    dependent_name := r.db ++ "." ++ r.schema ++ "." ++ r.name }

/-- The `ProgrammingError` text that marks non-existence of the queried
object. -/
def nonexistMarker : String := "does not exist or not authorized"

/-- The `try/except ProgrammingError` body for one impacted object: a fetch
yields one dependency per row; a "does not exist or not authorized" error is
informational (`continue`, no edges); any other database error is fatal
(`sys.exit(1)`, modelled by `Except.error` with the message). -/
def checkObject (k : ObjKey) (outcome : QueryOutcome) : Except String (List Dependency) :=
  match outcome with
  | .ok rows => .ok (rows.map (dependencyOfRow k))
  | .progError msg =>
    if strContains msg nonexistMarker then .ok []
    else .error msg

/-- The step-2 loop over all impacted objects, accumulating
`blocking_dependencies` and aborting the whole run on the first fatal
database error.  `catalog` gives each object's query outcome. -/
def gatherDeps (catalog : ObjKey → QueryOutcome) : List ObjKey → Except String (List Dependency)
  | [] => .ok []
  | k :: rest =>
    match checkObject k (catalog k) with
    | .error e => .error e
    | .ok es =>
      match gatherDeps catalog rest with
      | .error e => .error e
      | .ok more => .ok (es ++ more)

/-! ### `scripts/dependency_checker.py` — self-drop filtering and decision -/

/-- `dropped_object_keys`: the `"DOMAIN.DB.SCHEMA.NAME"` strings of every
object being dropped in this change set. -/
def droppedObjectKeys (keys : List ObjKey) : List String :=
  keys.map fun k => k.domain ++ "." ++ k.db ++ "." ++ k.schema ++ "." ++ k.name

/-- The key the script builds for a dependency's referencing object:
`f"{dep['dependent_domain']}.{dep['dependent_name'].upper()}"`. -/
def dependentKey (dep : Dependency) : String :=
  dep.dependent_domain ++ "." ++ pyUpper dep.dependent_name

/-- `truly_blocking_dependencies`: keep only dependencies whose referencing
object is not itself being dropped in this same run. -/
def trulyBlockingDependencies (blocking : List Dependency) (droppedKeys : List String) :
    List Dependency :=
  blocking.filter fun dep => !(droppedKeys.contains (dependentKey dep))

/-- The printed line for one blocking dependency. -/
def dependencyReportLine (dep : Dependency) : String :=
  " • Object \x27" ++ dep.dependent_name ++ "\x27 (" ++ dep.dependent_domain ++
    ") depends on \x27" ++ dep.dropped_name ++ "\x27 which is being dropped or modified."

/-- The end of `main`: the report lines printed and the process exit status.
`argv` is the process argument list; `dependency_checker.main` never reads
`sys.argv`, so the result cannot depend on it (in particular there is no
`--dry-run` flag). -/
def gateFinalStep (_argv : List String) (truly : List Dependency) : List String × Nat :=
  if truly.isEmpty then
    (["\n✅ Success! No blocking dependencies found. It is safe to proceed."], 0)
  else
    (("\n" ++ String.mk (List.replicate 25 '=') ++ " ❌ DANGER ❌ " ++
        String.mk (List.replicate 25 '=')) ::
       "Execution stopped. Found blocking downstream dependencies:" ::
       truly.map dependencyReportLine ++
       [String.mk (List.replicate 65 '=')], 1)

/-! ### `scripts/rollback_time_travel.py` — `rollback_table` -/

/-- The statements `rollback_table` sends through `cursor.execute`, in the
order the source builds them. -/
inductive TTStmt where
  | create_backup (backup_table qualified_table timestamp : String)
  | truncate (qualified_table : String)
  | insert_restore (qualified_table backup_table : String)
  | drop_backup (backup_table : String)
deriving DecidableEq

/-- `rollback_table(conn, database, schema, table, timestamp)`: create the
backup clone at the requested timestamp, then truncate the main table and
re-insert from the backup; the `finally:` block drops the backup table no
matter how the `try:` body ended.  `exec` models whether each
`cursor.execute` succeeds; the result is the list of statements attempted, in
order, and whether the call returns without raising. -/
def rollback_table (exec : TTStmt → Bool) (database schema table timestamp : String) :
    List TTStmt × Bool :=
  let qualified_table := database ++ "." ++ schema ++ "." ++ table
  let backup_table := database ++ "." ++ schema ++ "." ++ table ++ "_backup_for_rollback"
  let s₁ := TTStmt.create_backup backup_table qualified_table timestamp
  let s₂ := TTStmt.truncate qualified_table
  let s₃ := TTStmt.insert_restore qualified_table backup_table
  let s₄ := TTStmt.drop_backup backup_table
  if exec s₁ then
    if exec s₂ then
      if exec s₃ then ([s₁, s₂, s₃, s₄], exec s₄)
      else ([s₁, s₂, s₃, s₄], false)
    else ([s₁, s₂, s₄], false)
  else ([s₁, s₄], false)

/-- An executor on which the restore step fails: the `TRUNCATE TABLE` raises
(e.g. a lock or privilege error) and every other statement succeeds. -/
def execTruncateFails : TTStmt → Bool
  | .truncate _ => false
  | _ => true

/-! ### `scripts/rollback_generator.py` — catalog lookups -/

/-- One row of `INFORMATION_SCHEMA.COLUMNS` as fetched by `get_column_type`:
`DATA_TYPE, CHARACTER_MAXIMUM_LENGTH, NUMERIC_PRECISION, NUMERIC_SCALE`. -/
structure ColRow where
  data_type : String
  char_max_len : Option Int
  num_precision : Option Int
  num_scale : Option Int
deriving DecidableEq

/-- Python `f"{x}"` of an optional integer (`None` prints as `None`). -/
def pyShowOptInt : Option Int → String
  | none => "None"
  | some n => toString n

/-- Python truthiness of `char_len` (`None` and `0` are falsy). -/
def charLenTruthy : Option Int → Bool
  | none => false
  | some n => n != 0

/-- The type-rendering logic of `get_column_type` applied to a fetched row:
character types carry their max length when truthy, numeric types carry
precision and scale when precision is present, anything else is the bare
`DATA_TYPE`. -/
def columnTypeOfRow (row : ColRow) : String :=
  if ["VARCHAR", "CHAR", "TEXT"].contains (pyUpper row.data_type) &&
      charLenTruthy row.char_max_len then
    row.data_type ++ "(" ++ pyShowOptInt row.char_max_len ++ ")"
  else if ["NUMBER", "DECIMAL", "NUMERIC"].contains (pyUpper row.data_type) &&
      row.num_precision.isSome then
    row.data_type ++ "(" ++ pyShowOptInt row.num_precision ++ "," ++
      pyShowOptInt row.num_scale ++ ")"
  else row.data_type

/-- Python `full_table.split('.', 1)` when two pieces are expected: `none`
models the `ValueError` raised by unpacking a dot-free name. -/
def splitOnceDot (s : String) : Option (String × String) :=
  match splitOnChar '.' s.data with
  | [] => none
  | [_] => none
  | x :: xs => some (String.mk x, String.mk (joinDot xs))

/-- `get_column_type(conn, full_table, column)`: split `full_table` into
schema and table (raising, modelled as `Except.error`, when it has no dot),
query the catalog — modelled as a function from (schema, table, column) to
the fetched row, `none` when `fetchone` finds nothing — and render the type.
Returns `ok none` when the column is not found. -/
def get_column_type (catalog : String → String → String → Option ColRow)
    (full_table column : String) : Except String (Option String) :=
  match splitOnceDot full_table with
  | none => .error ("ValueError: cannot unpack schema.table from " ++ full_table)
  | some (schema, table) =>
    match catalog schema table column with
    | none => .ok none
    | some row => .ok (some (columnTypeOfRow row))

/-- Python `x or "<ORIGINAL_TYPE>"`: the placeholder replaces a missing
(`None`) or empty (falsy) looked-up type. -/
def pyOrPlaceholder : Option String → String
  | none => "<ORIGINAL_TYPE>"
  | some s => if s == "" then "<ORIGINAL_TYPE>" else s

/-! ### `scripts/rollback_generator.py` — `generate_rollback` patterns -/

/-- Capture class `[\w(), ]+` of the SET DATA TYPE pattern. -/
def capWordParenCommaSpace (c : Char) : Bool :=
  pyWord c || c == '(' || c == ')' || c == ',' || c == ' '

/-- `ALTER\s+TABLE\s+(\S+)\s+ADD\s+COLUMN\s+(\S+)` -/
def reAddColumn : RPattern :=
  ⟨false, [.kw "ALTER".toList, .sp, .kw "TABLE".toList, .sp, .cap capNoSpace, .sp,
           .kw "ADD".toList, .sp, .kw "COLUMN".toList, .sp, .cap capNoSpace]⟩

/-- `ALTER\s+TABLE\s+(\S+)\s+DROP\s+COLUMN\s+IF\s+EXISTS\s+(\S+)` -/
def reDropColumnIfExists : RPattern :=
  ⟨false, [.kw "ALTER".toList, .sp, .kw "TABLE".toList, .sp, .cap capNoSpace, .sp,
           .kw "DROP".toList, .sp, .kw "COLUMN".toList, .sp,
           .kw "IF".toList, .sp, .kw "EXISTS".toList, .sp, .cap capNoSpace]⟩

/-- `ALTER\s+TABLE\s+(\S+)\s+ALTER\s+COLUMN\s+(\S+)\s+SET\s+DATA\s+TYPE\s+([\w\(\), ]+);` -/
def reSetDataType : RPattern :=
  ⟨false, [.kw "ALTER".toList, .sp, .kw "TABLE".toList, .sp, .cap capNoSpace, .sp,
           .kw "ALTER".toList, .sp, .kw "COLUMN".toList, .sp, .cap capNoSpace, .sp,
           .kw "SET".toList, .sp, .kw "DATA".toList, .sp, .kw "TYPE".toList, .sp,
           .cap capWordParenCommaSpace, .kw ";".toList]⟩

/-- `ALTER\s+TABLE\s+(\S+)\s+RENAME\s+COLUMN\s+(\S+)\s+TO\s+(\S+);` -/
def reRenameColumn : RPattern :=
  ⟨false, [.kw "ALTER".toList, .sp, .kw "TABLE".toList, .sp, .cap capNoSpace, .sp,
           .kw "RENAME".toList, .sp, .kw "COLUMN".toList, .sp, .cap capNoSpace, .sp,
           .kw "TO".toList, .sp, .cap capNoSpace, .kw ";".toList]⟩

/-- `CREATE\s+OR\s+REPLACE\s+(TABLE|VIEW|FUNCTION|PROCEDURE|SEQUENCE|STAGE|FILE FORMAT)\s+(\S+)`.
The alternation captures the matched keyword; the table stores the canonical
spellings, and the caller applies `.upper()` which identifies all casings. -/
def reCreateOrReplace : RPattern :=
  ⟨false, [.kw "CREATE".toList, .sp, .kw "OR".toList, .sp, .kw "REPLACE".toList, .sp,
           .alt ["TABLE".toList, "VIEW".toList, "FUNCTION".toList, "PROCEDURE".toList,
                 "SEQUENCE".toList, "STAGE".toList, "FILE FORMAT".toList],
           .sp, .cap capNoSpace]⟩

/-- `CREATE\s+SCHEMA\s+IF\s+NOT\s+EXISTS\s+(\S+)` -/
def reCreateSchemaIfNotExists : RPattern :=
  ⟨false, [.kw "CREATE".toList, .sp, .kw "SCHEMA".toList, .sp, .kw "IF".toList, .sp,
           .kw "NOT".toList, .sp, .kw "EXISTS".toList, .sp, .cap capNoSpace]⟩

/-! ### `scripts/rollback_generator.py` — `generate_rollback` -/

/-- Branch 1 line: `ALTER TABLE {tbl} DROP COLUMN {col};`. -/
def addColumnInverse (tbl col : String) : String :=
  "ALTER TABLE " ++ tbl ++ " DROP COLUMN " ++ col ++ ";"

/-- Branch 2 line: `ALTER TABLE {tbl} ADD COLUMN {col} {orig_type};` where
`orig_type = get_column_type(conn, tbl, col) or "<ORIGINAL_TYPE>"`. -/
def dropColumnInverse (catalog : String → String → String → Option ColRow)
    (tbl col : String) : Except String String :=
  match get_column_type catalog tbl col with
  | .error e => .error e
  | .ok t => .ok ("ALTER TABLE " ++ tbl ++ " ADD COLUMN " ++ col ++ " " ++
      pyOrPlaceholder t ++ ";")

/-- Branch 3 line: `ALTER TABLE {tbl} ALTER COLUMN {col} SET DATA TYPE {orig_type};`. -/
def setDataTypeInverse (catalog : String → String → String → Option ColRow)
    (tbl col : String) : Except String String :=
  match get_column_type catalog tbl col with
  | .error e => .error e
  | .ok t => .ok ("ALTER TABLE " ++ tbl ++ " ALTER COLUMN " ++ col ++
      " SET DATA TYPE " ++ pyOrPlaceholder t ++ ";")

/-- Branch 4 line: `ALTER TABLE {tbl} RENAME COLUMN {new} TO {old};`. -/
def renameColumnInverse (tbl old new : String) : String :=
  "ALTER TABLE " ++ tbl ++ " RENAME COLUMN " ++ new ++ " TO " ++ old ++ ";"

/-- Branch 5 line: `DROP {obj.upper()} IF EXISTS {name};`. -/
def createOrReplaceInverse (obj name : String) : String :=
  "DROP " ++ pyUpper obj ++ " IF EXISTS " ++ name ++ ";"

/-- Branch 6: `re.search` for `CREATE SCHEMA IF NOT EXISTS`, first match. -/
def searchCreateSchema (sql : List Char) : Option String :=
  match finditer reCreateSchemaIfNotExists sql with
  | caps :: _ => some (caps.headD "")
  | [] => none

/-- `generate_rollback(sql, folder_type, conn)`.  The six branches of the
source, in order; catalog lookups thread through `Except` because
`get_column_type` can raise on a dot-free table name, which aborts the whole
call.  Every pattern yields a fixed number of groups, extracted here with
`getD` defaults that the patterns never fall back to. -/
def generate_rollback (catalog : String → String → String → Option ColRow)
    (folder_type : String) (sql : List Char) : Except String (List String) := do
  let lines₁ := (findall reAddColumn sql).map fun caps =>
    addColumnInverse (caps.getD 0 "") (caps.getD 1 "")
  let lines₂ ← (findall reDropColumnIfExists sql).mapM fun caps =>
    dropColumnInverse catalog (caps.getD 0 "") (caps.getD 1 "")
  let lines₃ ← (findall reSetDataType sql).mapM fun caps =>
    setDataTypeInverse catalog (caps.getD 0 "") (caps.getD 1 "")
  let lines₄ := (findall reRenameColumn sql).map fun caps =>
    renameColumnInverse (caps.getD 0 "") (caps.getD 1 "") (caps.getD 2 "")
  let lines₅ := (findall reCreateOrReplace sql).map fun caps =>
    createOrReplaceInverse (caps.getD 0 "") (caps.getD 1 "")
  let lines₆ :=
    if folder_type == "setup" && occursSub "full_setup.sql".toList (sql.map Char.toLower) then
      match searchCreateSchema sql with
      | some schema => ["DROP SCHEMA IF EXISTS " ++ schema ++ ";"]
      | none => []
    else []
  pure (lines₁ ++ lines₂ ++ lines₃ ++ lines₄ ++ lines₅ ++ lines₆)

/-- A concrete blocking dependency: the view `SALES.ORDERS_V` depends on the
dropped table `SALES.LEGACY_ORDERS` (spec Scenario 2). -/
def sampleDependency : Dependency :=
  ⟨"TABLE", "PROD.SALES.LEGACY_ORDERS", "VIEW", "PROD.SALES.ORDERS_V"⟩

/-! ## Theorems -/

/-- C1: any dependency edge whose referencing (dependent) object is itself in
the dropped-object set of the same change set is excluded from the final
blocking list (`truly_blocking_dependencies`).  Membership of the dependent
in `droppedObjects` is exactly the script's key test: its
`"DOMAIN.DB.SCHEMA.NAME"` key occurs among the dropped objects' keys. -/
theorem self_drop_edges_never_block (blocking : List Dependency) (keys : List ObjKey)
    (dep : Dependency) (h : dependentKey dep ∈ droppedObjectKeys keys) :
    dep ∉ trulyBlockingDependencies blocking (droppedObjectKeys keys) := by
  intro hmem
  rw [trulyBlockingDependencies, List.mem_filter] at hmem
  have hc : (droppedObjectKeys keys).contains (dependentKey dep) = true :=
    List.elem_iff.mpr h
  rw [hc] at hmem
  simp at hmem

/-- Witness for C1 at a concrete change set: both `LEGACY_ORDERS` and its
dependent view are dropped together, so the edge does not block. -/
theorem self_drop_edges_never_block_witness :
    dependentKey sampleDependency ∈
      droppedObjectKeys [⟨"VIEW", "PROD", "SALES", "ORDERS_V"⟩,
                         ⟨"TABLE", "PROD", "SALES", "LEGACY_ORDERS"⟩] ∧
    sampleDependency ∉
      trulyBlockingDependencies [sampleDependency]
        (droppedObjectKeys [⟨"VIEW", "PROD", "SALES", "ORDERS_V"⟩,
                            ⟨"TABLE", "PROD", "SALES", "LEGACY_ORDERS"⟩]) :=
  ⟨by decide,
   self_drop_edges_never_block [sampleDependency]
     [⟨"VIEW", "PROD", "SALES", "ORDERS_V"⟩, ⟨"TABLE", "PROD", "SALES", "LEGACY_ORDERS"⟩]
     sampleDependency (by decide)⟩

/-- C2 counterexample: the gate has no dry-run mode.  A run invoked with
`--dry-run` and a non-empty blocking list still exits with failure status 1,
contradicting "if the run is a dry run ... the process exits with a success
status". -/
theorem gate_dry_run_still_fails :
    (gateFinalStep ["--dry-run"] [sampleDependency]).2 = 1 := rfl

/-- C2 as amended: `dependency_checker.main` reads no command-line flags; for
every argument list (including `--dry-run`), a non-empty blocking list makes
the process exit 1 with a report line naming each blocking dependency, and
the exit status is 0 exactly when the blocking list is empty. -/
theorem gate_exit_policy (argv : List String) (truly : List Dependency) :
    ((gateFinalStep argv truly).2 = 0 ↔ truly = []) ∧
    (truly ≠ [] →
      (gateFinalStep argv truly).2 = 1 ∧
      ∀ d ∈ truly, dependencyReportLine d ∈ (gateFinalStep argv truly).1) := by
  cases truly with
  | nil => exact ⟨by simp [gateFinalStep], fun h => absurd rfl h⟩
  | cons x xs =>
    have hg : gateFinalStep argv (x :: xs) =
        (("\n" ++ String.mk (List.replicate 25 '=') ++ " ❌ DANGER ❌ " ++
            String.mk (List.replicate 25 '=')) ::
           "Execution stopped. Found blocking downstream dependencies:" ::
           (x :: xs).map dependencyReportLine ++
           [String.mk (List.replicate 65 '=')], 1) := rfl
    refine ⟨?_, fun _ => ⟨by rw [hg], ?_⟩⟩
    · rw [hg]
      simp
    · intro d hd
      rw [hg]
      refine List.mem_cons_of_mem _ (List.mem_cons_of_mem _ ?_)
      exact List.mem_append_left _ (List.mem_map_of_mem _ hd)

/-- Witness for the amended C2 at a concrete run: `--dry-run` with one
blocking edge still exits 1 and reports the edge. -/
theorem gate_exit_policy_witness :
    (gateFinalStep ["--dry-run"] [sampleDependency]).2 = 1 ∧
    dependencyReportLine sampleDependency ∈
      (gateFinalStep ["--dry-run"] [sampleDependency]).1 := by
  have h := (gate_exit_policy ["--dry-run"] [sampleDependency]).2 (by decide)
  exact ⟨h.1, h.2 sampleDependency (List.Mem.head _)⟩

/-- C3 counterexample: on a run where the restore step (`TRUNCATE TABLE`)
fails, `rollback_table` still drops the backup table from its `finally:`
block — the pre-change backup is deleted while the rollback depending on it
is pending, and the call raises (returns unsuccessfully). -/
theorem backup_dropped_on_failed_restore :
    rollback_table execTruncateFails "PROD" "PUBLIC" "ORDERS" "2024-01-01 00:00:00" =
      ([.create_backup "PROD.PUBLIC.ORDERS_backup_for_rollback" "PROD.PUBLIC.ORDERS"
          "2024-01-01 00:00:00",
        .truncate "PROD.PUBLIC.ORDERS",
        .drop_backup "PROD.PUBLIC.ORDERS_backup_for_rollback"], false) ∧
    TTStmt.drop_backup "PROD.PUBLIC.ORDERS_backup_for_rollback" ∈
      (rollback_table execTruncateFails "PROD" "PUBLIC" "ORDERS" "2024-01-01 00:00:00").1 := by
  exact ⟨rfl, by decide⟩

/-- C3 as amended: every execution of `rollback_table` — whether the backup
creation, the restore steps, or nothing fails — ends by attempting
`DROP TABLE IF EXISTS` on the backup table: the backup is torn down
automatically, never left in place. -/
theorem rollback_always_drops_backup (exec : TTStmt → Bool)
    (database schema table timestamp : String) :
    (rollback_table exec database schema table timestamp).1.getLast? =
      some (.drop_backup (database ++ "." ++ schema ++ "." ++ table ++
        "_backup_for_rollback")) := by
  rw [rollback_table]
  split
  · split
    · split
      · rfl
      · rfl
    · rfl
  · rfl

/-- Every error `qualifyEvent` produces names the scanned file and the
literal unparsed identifier of the offending event. -/
theorem qualifyEvent_error_shape (target_db fname : String) (ds : Option String)
    (ev : String × String) (e : QualifyError)
    (h : qualifyEvent target_db fname ds ev = .error e) : e = ⟨fname, ev.2⟩ := by
  unfold qualifyEvent at h
  cases hp : parse_fully_qualified_name ev.2 (pyUpper target_db) ds with
  | none =>
    rw [hp] at h
    exact (Except.error.injEq _ _).mp h.symm
  | some t =>
    obtain ⟨db, schema, name⟩ := t
    rw [hp] at h
    dsimp only at h
    split at h
    · exact (Except.error.injEq _ _).mp h.symm
    · cases h

/-- If some scanned event fails to qualify, the whole per-file loop aborts
with an error. -/
theorem qualifyEvents_error_of_mem (target_db fname : String) (ds : Option String)
    {evs : List (String × String)} {ev : String × String} (hmem : ev ∈ evs)
    (herr : ∃ e, qualifyEvent target_db fname ds ev = .error e) :
    ∃ e, qualifyEvents target_db fname ds evs = .error e := by
  induction evs with
  | nil => cases hmem
  | cons x rest ih =>
    cases hx : qualifyEvent target_db fname ds x with
    | error e => exact ⟨e, by simp [qualifyEvents, hx]⟩
    | ok k =>
      rcases List.mem_cons.mp hmem with rfl | hmem₁
      · obtain ⟨e, he⟩ := herr
        rw [hx] at he
        cases he
      · obtain ⟨e₁, he₁⟩ := ih hmem₁
        exact ⟨e₁, by simp [qualifyEvents, hx, he₁]⟩

/-- Any abort of the per-file loop names the scanned file, and its literal is
the unparsed text of one of the scanned events. -/
theorem qualifyEvents_error_names (target_db fname : String) (ds : Option String)
    {evs : List (String × String)} {e : QualifyError}
    (h : qualifyEvents target_db fname ds evs = .error e) :
    e.file = fname ∧ ∃ d, (d, e.literal) ∈ evs := by
  induction evs with
  | nil => simp [qualifyEvents] at h
  | cons x rest ih =>
    cases hx : qualifyEvent target_db fname ds x with
    | error e₀ =>
      have he : e₀ = e := by simpa [qualifyEvents, hx] using h
      have hshape := qualifyEvent_error_shape target_db fname ds x e₀ hx
      subst he
      rw [hshape]
      exact ⟨rfl, ⟨x.1, by simp⟩⟩
    | ok k =>
      cases hr : qualifyEvents target_db fname ds rest with
      | error e₁ =>
        have he : e₁ = e := by simpa [qualifyEvents, hx, hr] using h
        subst he
        obtain ⟨hf, d, hd⟩ := ih hr
        exact ⟨hf, ⟨d, List.mem_cons_of_mem _ hd⟩⟩
      | ok ks => simp [qualifyEvents, hx, hr] at h

/-- C4: a 1-part identifier (its cleaned split has a single piece) resolved
with no default schema yields no `ObjectRef` (`parse_fully_qualified_name`
returns the `(None, None, None)` failure), and when such an identifier is
scanned from a file whose name provides no schema marker, the whole run
aborts fatally (`sys.exit(1)`) with an error naming the offending file and a
literal identifier text taken from the scanned events. -/
theorem one_part_identifier_aborts
    (name default_db target_db fname dom : String) (sql : List Char)
    (h₁ : (splitOnChar '.' (((pyUpper name).data).filter (fun c => c != '"'))).length = 1)
    (h₂ : schemaFromFilename fname = none)
    (h₃ : (dom, name) ∈ scanSql sql) :
    parse_fully_qualified_name name default_db none = none ∧
    (∃ lit d, collectImpactedFromFile target_db fname sql = .error ⟨fname, lit⟩ ∧
       (d, lit) ∈ scanSql sql) ∧
    scanExitCode (collectImpactedFromFile target_db fname sql) = some 1 := by
  have hparse : ∀ ddb : String, parse_fully_qualified_name name ddb none = none := by
    intro ddb
    obtain ⟨a, ha⟩ := List.length_eq_one.mp h₁
    unfold parse_fully_qualified_name
    rw [ha]
    simp
  have hds : (schemaFromFilename fname).map pyUpper = none := by rw [h₂]; rfl
  have hev : qualifyEvent target_db fname ((schemaFromFilename fname).map pyUpper)
      (dom, name) = .error ⟨fname, name⟩ := by
    rw [hds]
    simp [qualifyEvent, hparse]
  obtain ⟨e, he⟩ :=
    qualifyEvents_error_of_mem target_db fname ((schemaFromFilename fname).map pyUpper)
      h₃ ⟨_, hev⟩
  have hc : collectImpactedFromFile target_db fname sql = .error e := he
  obtain ⟨hf, d, hd⟩ := qualifyEvents_error_names target_db fname _ he
  have he' : e = ⟨fname, e.literal⟩ := by
    cases e
    simp_all
  refine ⟨hparse default_db, ⟨e.literal, d, ?_, hd⟩, ?_⟩
  · rw [hc, he']
  · rw [hc]
    rfl

/-- Witness for C4: the 1-part identifier `ORDERS` in
`DROP TABLE ORDERS;` scanned from `V1__desc.sql` (no schema marker) fails
resolution and aborts the run naming the file and literal. -/
theorem one_part_identifier_aborts_witness :
    parse_fully_qualified_name "ORDERS" "PROD" none = none ∧
    (∃ lit d, collectImpactedFromFile "PROD" "V1__desc.sql" "DROP TABLE ORDERS;".toList =
        .error ⟨"V1__desc.sql", lit⟩ ∧ (d, lit) ∈ scanSql "DROP TABLE ORDERS;".toList) ∧
    scanExitCode (collectImpactedFromFile "PROD" "V1__desc.sql" "DROP TABLE ORDERS;".toList) =
      some 1 :=
  one_part_identifier_aborts "ORDERS" "PROD" "PROD" "V1__desc.sql" "TABLE"
    "DROP TABLE ORDERS;".toList (by decide) (by decide) (by decide)

/-- C5: for each impacted object's dependency query, a `ProgrammingError`
whose message reports non-existence is not an error — that object contributes
an empty dependency list and the loop continues over the remaining objects —
while any other database error aborts the whole run (`sys.exit(1)`). -/
theorem dependency_query_error_policy
    (catalog : ObjKey → QueryOutcome) (k : ObjKey) (rest : List ObjKey) (msg : String)
    (h : catalog k = .progError msg) :
    (strContains msg nonexistMarker = true →
       checkObject k (catalog k) = .ok [] ∧
       gatherDeps catalog (k :: rest) = gatherDeps catalog rest) ∧
    (strContains msg nonexistMarker = false →
       gatherDeps catalog (k :: rest) = .error msg) := by
  constructor
  · intro hm
    have hck : checkObject k (catalog k) = .ok [] := by rw [h]; simp [checkObject, hm]
    refine ⟨hck, ?_⟩
    cases hrest : gatherDeps catalog rest <;> simp [gatherDeps, hck, hrest]
  · intro hm
    have hck : checkObject k (catalog k) = .error msg := by rw [h]; simp [checkObject, hm]
    simp [gatherDeps, hck]

/-- Witness for C5: a "does not exist or not authorized" error skips the
object with no edges, while a different compilation error aborts the run
with that message. -/
theorem dependency_query_error_policy_witness :
    (checkObject ⟨"TABLE", "PROD", "SALES", "T"⟩
        (QueryOutcome.progError
          "002003 (42S02): Object \x27PROD.SALES.T\x27 does not exist or not authorized.") =
        .ok [] ∧
      gatherDeps (fun _ => QueryOutcome.progError
          "002003 (42S02): Object \x27PROD.SALES.T\x27 does not exist or not authorized.")
        [⟨"TABLE", "PROD", "SALES", "T"⟩] =
      gatherDeps (fun _ => QueryOutcome.progError
          "002003 (42S02): Object \x27PROD.SALES.T\x27 does not exist or not authorized.") []) ∧
    gatherDeps (fun _ => QueryOutcome.progError "250001 (08001): Failed to connect")
      [⟨"TABLE", "PROD", "SALES", "T"⟩] =
      .error "250001 (08001): Failed to connect" :=
  ⟨(dependency_query_error_policy
      (fun _ => QueryOutcome.progError
        "002003 (42S02): Object \x27PROD.SALES.T\x27 does not exist or not authorized.")
      ⟨"TABLE", "PROD", "SALES", "T"⟩ [] _ rfl).1 (by decide),
   (dependency_query_error_policy
      (fun _ => QueryOutcome.progError "250001 (08001): Failed to connect")
      ⟨"TABLE", "PROD", "SALES", "T"⟩ [] _ rfl).2 (by decide)⟩

/-- The length of a flatMap is the sum of the lengths of the pieces. -/
theorem length_flatMap_eq_sum {α β : Type} (l : List α) (f : α → List β) :
    (l.flatMap f).length = (l.map fun a => (f a).length).sum := by
  induction l with
  | nil => rfl
  | cons x xs ih => simp [List.flatMap_cons, ih]

/-- C6: the scanner enumerates every destructive statement.  Every match of
every regex of every domain in `DESTRUCTIVE_PATTERNS` contributes its own
change event to the scan result (nothing stops at a first match), and the
number of events is exactly the total number of matches across all
patterns — one event per matching statement. -/
theorem scanner_enumerates_every_match (sql : List Char) (dom : String)
    (pats : List RPattern) (p : RPattern) (caps : List String)
    (h₁ : (dom, pats) ∈ destructivePatterns) (h₂ : p ∈ pats)
    (h₃ : caps ∈ finditer p sql) :
    ((if dom == "ALTER_TABLE_DROP_COLUMN" then "TABLE" else dom), caps.headD "") ∈
        scanSql sql ∧
    (scanSql sql).length =
      (destructivePatterns.map fun dp =>
        (dp.2.map fun r => (finditer r sql).length).sum).sum := by
  constructor
  · refine List.mem_flatMap.mpr ⟨(dom, pats), h₁, ?_⟩
    refine List.mem_flatMap.mpr ⟨p, h₂, ?_⟩
    exact List.mem_map.mpr ⟨caps, h₃, rfl⟩
  · rw [scanSql, length_flatMap_eq_sum]
    refine congrArg List.sum (List.map_congr_left ?_)
    intro dp _
    rw [length_flatMap_eq_sum]
    refine congrArg List.sum (List.map_congr_left ?_)
    intro r _
    simp [List.length_map]

/-- Witness for C6: a file holding three destructive statements of different
families; the third one (`TRUNCATE TABLE C`) still yields its own event, and
the event count equals the total match count. -/
theorem scanner_enumerates_every_match_witness :
    (((if ("TABLE" : String) == "ALTER_TABLE_DROP_COLUMN" then "TABLE" else "TABLE"),
        (["C"] : List String).headD "") ∈
      scanSql "DROP TABLE A; DROP VIEW B; TRUNCATE TABLE C;".toList) ∧
    (scanSql "DROP TABLE A; DROP VIEW B; TRUNCATE TABLE C;".toList).length =
      (destructivePatterns.map fun dp =>
        (dp.2.map fun r =>
          (finditer r "DROP TABLE A; DROP VIEW B; TRUNCATE TABLE C;".toList).length).sum).sum :=
  scanner_enumerates_every_match "DROP TABLE A; DROP VIEW B; TRUNCATE TABLE C;".toList
    "TABLE" [reDropTable, reTruncateTable] reTruncateTable ["C"]
    (List.Mem.head _) (List.Mem.tail _ (List.Mem.head _)) (by decide)

/-- C7 (evaluating the code at the failing inputs): the scanner performs no
comment or string-literal stripping, so a destructive statement appearing
only inside a SQL line comment, or only inside a string literal, still
produces a change event. -/
theorem comment_and_string_text_still_scanned :
    scanSql "-- DROP TABLE FOO;".toList = [("TABLE", "FOO")] ∧
    scanSql "INSERT INTO audit_log VALUES (\x27DROP TABLE FOO \x27);".toList =
      [("TABLE", "FOO")] := by decide

/-! ### Structural lemmas about the matcher (used for C10) -/

/-- A successful keyword consumption leaves a suffix of the input. -/
theorem eatCI_suffix (w : List Char) :
    ∀ (s s₁ : List Char), eatCI w s = some s₁ → s₁ <:+ s := by
  induction w with
  | nil =>
    intro s s₁ h
    simp [eatCI] at h
    exact h ▸ List.suffix_rfl
  | cons k ks ih =>
    intro s s₁ h
    cases s with
    | nil => simp [eatCI] at h
    | cons c cs =>
      rw [eatCI] at h
      split at h
      · exact (ih cs s₁ h).trans (List.suffix_cons c cs)
      · cases h

/-- A keyword that matches at the head of `s` occurs in `s`. -/
theorem occursCI_of_eatCI (w : List Char) {s s₁ : List Char}
    (h : eatCI w s = some s₁) : occursCI w s = true := by
  cases s with
  | nil => simp [occursCI, h]
  | cons c cs => simp [occursCI, h]

/-- Case-insensitive occurrence is preserved when extending the text on the
left (occurrence in a suffix is occurrence in the whole). -/
theorem occursCI_suffix (w : List Char) {s₁ s : List Char} (hs : s₁ <:+ s)
    (h : occursCI w s₁ = true) : occursCI w s = true := by
  obtain ⟨pre, rfl⟩ := hs
  induction pre with
  | nil => simpa using h
  | cons p ps ih =>
    rw [List.cons_append]
    simp only [occursCI]
    rw [ih]
    simp

/-- The unconsumed rest returned by the matcher is a suffix of its input. -/
theorem matchItems_rest_suffix :
    ∀ (fuel : Nat) (items : List RItem) (s : List Char) (acc caps : List String)
      (rest : List Char), matchItems fuel items s acc = some (caps, rest) → rest <:+ s := by
  intro fuel
  induction fuel with
  | zero => intro items s acc caps rest h; simp [matchItems] at h
  | succ f ih =>
    intro items s acc caps rest h
    cases items with
    | nil =>
      simp [matchItems] at h
      exact h.2 ▸ List.suffix_rfl
    | cons it its =>
      cases it with
      | kw w =>
        rw [matchItems] at h
        cases heat : eatCI w s with
        | none => rw [heat] at h; cases h
        | some s₁ =>
          rw [heat] at h
          exact (ih its s₁ acc caps rest h).trans (eatCI_suffix w s s₁ heat)
      | sp =>
        rw [matchItems] at h
        split at h
        · cases h
        · obtain ⟨i, _, hmi⟩ := List.exists_of_findSome?_eq_some h
          exact (ih its _ acc caps rest hmi).trans (List.drop_suffix _ s)
      | opt sub =>
        rw [matchItems] at h
        cases hsub : matchItems f (sub ++ its) s acc with
        | some r =>
          rw [hsub] at h
          cases h
          exact ih (sub ++ its) s acc caps rest hsub
        | none =>
          rw [hsub] at h
          exact ih its s acc caps rest h
      | cap pc =>
        rw [matchItems] at h
        split at h
        · cases h
        · obtain ⟨i, _, hmi⟩ := List.exists_of_findSome?_eq_some h
          exact (ih its _ _ caps rest hmi).trans (List.drop_suffix _ s)
      | alt alts =>
        rw [matchItems] at h
        obtain ⟨w, _, hmw⟩ := List.exists_of_findSome?_eq_some h
        cases heat : eatCI w s with
        | none => rw [heat] at hmw; cases hmw
        | some s₁ =>
          rw [heat] at hmw
          exact (ih its s₁ _ caps rest hmw).trans (eatCI_suffix w s s₁ heat)

/-- If the matcher succeeds and its item list contains a mandatory literal
keyword, that keyword occurs (case-insensitively) in the input: a match
cannot avoid any of its mandatory keywords. -/
theorem matchItems_kw_occurs (w : List Char) :
    ∀ (fuel : Nat) (items : List RItem) (s : List Char) (acc caps : List String)
      (rest : List Char), RItem.kw w ∈ items →
      matchItems fuel items s acc = some (caps, rest) → occursCI w s = true := by
  intro fuel
  induction fuel with
  | zero => intro items s acc caps rest _ h; simp [matchItems] at h
  | succ f ih =>
    intro items s acc caps rest hmem h
    cases items with
    | nil => cases hmem
    | cons it its =>
      cases it with
      | kw w₁ =>
        rw [matchItems] at h
        cases heat : eatCI w₁ s with
        | none => rw [heat] at h; cases h
        | some s₁ =>
          rw [heat] at h
          rcases List.mem_cons.mp hmem with heq | hmem₁
          · cases heq
            exact occursCI_of_eatCI w heat
          · exact occursCI_suffix w (eatCI_suffix w₁ s s₁ heat)
              (ih its s₁ acc caps rest hmem₁ h)
      | sp =>
        rcases List.mem_cons.mp hmem with heq | hmem₁
        · cases heq
        · rw [matchItems] at h
          split at h
          · cases h
          · obtain ⟨i, _, hmi⟩ := List.exists_of_findSome?_eq_some h
            exact occursCI_suffix w (List.drop_suffix _ s)
              (ih its _ acc caps rest hmem₁ hmi)
      | opt sub =>
        rcases List.mem_cons.mp hmem with heq | hmem₁
        · cases heq
        · rw [matchItems] at h
          cases hsub : matchItems f (sub ++ its) s acc with
          | some r =>
            rw [hsub] at h
            cases h
            exact ih (sub ++ its) s acc caps rest (List.mem_append_right sub hmem₁) hsub
          | none =>
            rw [hsub] at h
            exact ih its s acc caps rest hmem₁ h
      | cap pc =>
        rcases List.mem_cons.mp hmem with heq | hmem₁
        · cases heq
        · rw [matchItems] at h
          split at h
          · cases h
          · obtain ⟨i, _, hmi⟩ := List.exists_of_findSome?_eq_some h
            exact occursCI_suffix w (List.drop_suffix _ s)
              (ih its _ _ caps rest hmem₁ hmi)
      | alt alts =>
        rcases List.mem_cons.mp hmem with heq | hmem₁
        · cases heq
        · rw [matchItems] at h
          obtain ⟨w₁, _, hmw⟩ := List.exists_of_findSome?_eq_some h
          cases heat : eatCI w₁ s with
          | none => rw [heat] at hmw; cases hmw
          | some s₁ =>
            rw [heat] at hmw
            exact occursCI_suffix w (eatCI_suffix w₁ s s₁ heat)
              (ih its s₁ _ caps rest hmem₁ hmw)

/-- Lift the previous lemma through the scanning loop: any emitted match
implies the mandatory keyword occurs in the scanned text. -/
theorem scanFrom_kw_occurs (p : RPattern) (w : List Char)
    (hw : RItem.kw w ∈ p.items) :
    ∀ (fuel : Nat) (prev : Option Char) (s : List Char) (caps : List String),
      caps ∈ scanFrom p fuel prev s → occursCI w s = true := by
  intro fuel
  induction fuel with
  | zero => intro prev s caps h; simp [scanFrom] at h
  | succ f ih =>
    intro prev s caps h
    cases s with
    | nil => simp [scanFrom] at h
    | cons c cs =>
      rw [scanFrom] at h
      cases hm : matchHere p prev (c :: cs) with
      | none =>
        rw [hm] at h
        exact occursCI_suffix w (List.suffix_cons c cs) (ih (some c) cs caps h)
      | some r =>
        obtain ⟨caps₀, s₁⟩ := r
        rw [hm] at h
        have hmi : matchItems matcherFuel p.items (c :: cs) [] = some (caps₀, s₁) := by
          unfold matchHere at hm
          split at hm
          · cases hm
          · exact hm
        rcases List.mem_cons.mp h with heq | h₁
        · exact matchItems_kw_occurs w matcherFuel p.items (c :: cs) [] caps₀ s₁ hw hmi
        · exact occursCI_suffix w
            (matchItems_rest_suffix matcherFuel p.items (c :: cs) [] caps₀ s₁ hmi)
            (ih _ s₁ caps h₁)

/-- If a mandatory keyword of `p` does not occur in the text, `p` has no
matches at all. -/
theorem finditer_requires_kw (p : RPattern) (w : List Char)
    (hw : RItem.kw w ∈ p.items) (sql : List Char)
    (h : occursCI w sql = false) : finditer p sql = [] := by
  by_contra hne
  obtain ⟨caps, hcaps⟩ := List.exists_mem_of_ne_nil _ hne
  rw [scanFrom_kw_occurs p w hw sql.length none sql caps hcaps] at h
  cases h

/-- Strings whose first characters differ are different. -/
theorem string_ne_of_head_ne (s t : String) (h : s.data.head? ≠ t.data.head?) :
    s ≠ t := fun he => h (he ▸ rfl)

/-- C8: for a DROP COLUMN event the synthesizer actually inverts (the
`IF EXISTS` form, see C10), the rollback line is `ALTER TABLE … ADD COLUMN …`
and its type field is decided by the catalog lookup: a successful lookup of
the pre-change type puts exactly the recovered, rendered type (the rendering
includes max length for character types and precision/scale for numeric
types by `columnTypeOfRow`) into the line, and that type is not the
placeholder as long as the catalog type does not itself start with `<`; a
failed lookup (no row fetched) puts the visible `<ORIGINAL_TYPE>` placeholder
into the line — never a guessed concrete type. -/
theorem drop_column_rollback_type_policy
    (catalog : String → String → String → Option ColRow)
    (tbl col schema table : String)
    (hsplit : splitOnceDot tbl = some (schema, table)) :
    (∀ row : ColRow, catalog schema table col = some row →
       dropColumnInverse catalog tbl col =
         .ok ("ALTER TABLE " ++ tbl ++ " ADD COLUMN " ++ col ++ " " ++
           pyOrPlaceholder (some (columnTypeOfRow row)) ++ ";") ∧
       (columnTypeOfRow row ≠ "" →
         pyOrPlaceholder (some (columnTypeOfRow row)) = columnTypeOfRow row) ∧
       (∀ c, (columnTypeOfRow row).data.head? = some c → c ≠ '<' →
         columnTypeOfRow row ≠ "<ORIGINAL_TYPE>")) ∧
    (catalog schema table col = none →
       dropColumnInverse catalog tbl col =
         .ok ("ALTER TABLE " ++ tbl ++ " ADD COLUMN " ++ col ++ " " ++
           "<ORIGINAL_TYPE>" ++ ";")) := by
  constructor
  · intro row hrow
    refine ⟨?_, ?_, ?_⟩
    · simp [dropColumnInverse, get_column_type, hsplit, hrow]
    · intro hne
      simp [pyOrPlaceholder, hne]
    · intro c hc hlt
      refine string_ne_of_head_ne _ _ ?_
      rw [hc]
      intro hsome
      exact hlt (Option.some.inj hsome.symm).symm
  · intro hnone
    simp [dropColumnInverse, get_column_type, hsplit, hnone, pyOrPlaceholder]

/-- Witness for C8: with a catalog row `NUMBER(5,2)` the rollback carries the
rendered concrete type; with no catalog row it carries the placeholder. -/
theorem drop_column_rollback_type_policy_witness :
    dropColumnInverse (fun _ _ _ => some ⟨"NUMBER", none, some 5, some 2⟩)
        "SALES.ORDERS" "DISCOUNT" =
      .ok ("ALTER TABLE " ++ "SALES.ORDERS" ++ " ADD COLUMN " ++ "DISCOUNT" ++ " " ++
        pyOrPlaceholder (some (columnTypeOfRow ⟨"NUMBER", none, some 5, some 2⟩)) ++ ";") ∧
    columnTypeOfRow ⟨"NUMBER", none, some 5, some 2⟩ = "NUMBER(5,2)" ∧
    columnTypeOfRow ⟨"NUMBER", none, some 5, some 2⟩ ≠ "<ORIGINAL_TYPE>" ∧
    dropColumnInverse (fun _ _ _ => none) "SALES.ORDERS" "DISCOUNT" =
      .ok ("ALTER TABLE " ++ "SALES.ORDERS" ++ " ADD COLUMN " ++ "DISCOUNT" ++ " " ++
        "<ORIGINAL_TYPE>" ++ ";") :=
  ⟨((drop_column_rollback_type_policy (fun _ _ _ => some ⟨"NUMBER", none, some 5, some 2⟩)
      "SALES.ORDERS" "DISCOUNT" "SALES" "ORDERS" (by decide)).1
      ⟨"NUMBER", none, some 5, some 2⟩ rfl).1,
   by decide,
   ((drop_column_rollback_type_policy (fun _ _ _ => some ⟨"NUMBER", none, some 5, some 2⟩)
      "SALES.ORDERS" "DISCOUNT" "SALES" "ORDERS" (by decide)).1
      ⟨"NUMBER", none, some 5, some 2⟩ rfl).2.2 'N' (by decide) (by decide),
   (drop_column_rollback_type_policy (fun _ _ _ => none)
      "SALES.ORDERS" "DISCOUNT" "SALES" "ORDERS" (by decide)).2 rfl⟩

/-- C9: every ADD COLUMN match is inverted to a DROP COLUMN on the same table
and column, and the inversion consults no catalog: in particular Scenario 1
(`ALTER TABLE SALES.ORDERS ADD COLUMN DISCOUNT NUMBER(5,2);`) yields exactly
`ALTER TABLE SALES.ORDERS DROP COLUMN DISCOUNT;` for every catalog. -/
theorem add_column_rollback_exact :
    (∀ (sql : List Char) (tbl col : String), [tbl, col] ∈ findall reAddColumn sql →
       addColumnInverse tbl col ∈
         (findall reAddColumn sql).map fun caps =>
           addColumnInverse (caps.getD 0 "") (caps.getD 1 "")) ∧
    (∀ catalog : String → String → String → Option ColRow,
       generate_rollback catalog "migrations"
         "ALTER TABLE SALES.ORDERS ADD COLUMN DISCOUNT NUMBER(5,2);".toList =
         .ok ["ALTER TABLE SALES.ORDERS DROP COLUMN DISCOUNT;"]) := by
  constructor
  · intro sql tbl col h
    exact List.mem_map.mpr ⟨[tbl, col], h, rfl⟩
  · intro catalog
    rfl

/-- Witness for C9 at Scenario 1. -/
theorem add_column_rollback_exact_witness :
    addColumnInverse "SALES.ORDERS" "DISCOUNT" ∈
      (findall reAddColumn
        "ALTER TABLE SALES.ORDERS ADD COLUMN DISCOUNT NUMBER(5,2);".toList).map
        (fun caps => addColumnInverse (caps.getD 0 "") (caps.getD 1 "")) ∧
    generate_rollback (fun _ _ _ => none) "migrations"
      "ALTER TABLE SALES.ORDERS ADD COLUMN DISCOUNT NUMBER(5,2);".toList =
      .ok ["ALTER TABLE SALES.ORDERS DROP COLUMN DISCOUNT;"] :=
  ⟨add_column_rollback_exact.1
      "ALTER TABLE SALES.ORDERS ADD COLUMN DISCOUNT NUMBER(5,2);".toList
      "SALES.ORDERS" "DISCOUNT" (by decide),
   add_column_rollback_exact.2 (fun _ _ _ => none)⟩

/-- C10: the DROP COLUMN inversion pattern requires the literal keywords
`IF EXISTS`, so a SQL text in which `EXISTS` never occurs — in particular a
plain `ALTER TABLE … DROP COLUMN …;` statement — produces no DROP COLUMN
inversion at all, and the whole generated rollback for such a statement is
empty (for every catalog, in both the migrations and setup folders). -/
theorem plain_drop_column_not_inverted :
    (∀ sql : List Char, occursCI "EXISTS".toList sql = false →
       findall reDropColumnIfExists sql = []) ∧
    (∀ catalog : String → String → String → Option ColRow,
       generate_rollback catalog "migrations"
         "ALTER TABLE SALES.ORDERS DROP COLUMN DISCOUNT;".toList = .ok []) ∧
    (∀ catalog : String → String → String → Option ColRow,
       generate_rollback catalog "setup"
         "ALTER TABLE SALES.ORDERS DROP COLUMN DISCOUNT;".toList = .ok []) := by
  refine ⟨fun sql h => finditer_requires_kw _ _ ?_ sql h,
    fun catalog => rfl, fun catalog => rfl⟩
  exact List.Mem.tail _ (List.Mem.tail _ (List.Mem.tail _ (List.Mem.tail _
    (List.Mem.tail _ (List.Mem.tail _ (List.Mem.tail _ (List.Mem.tail _
    (List.Mem.tail _ (List.Mem.tail _ (List.Mem.tail _ (List.Mem.tail _
    (List.Mem.head _))))))))))))

/-- Witness for C10: the plain (no `IF EXISTS`) column drop of Scenario-1's
column produces no inversion candidate and an empty rollback artifact. -/
theorem plain_drop_column_not_inverted_witness :
    occursCI "EXISTS".toList "ALTER TABLE SALES.ORDERS DROP COLUMN DISCOUNT;".toList =
      false ∧
    findall reDropColumnIfExists
      "ALTER TABLE SALES.ORDERS DROP COLUMN DISCOUNT;".toList = [] ∧
    generate_rollback (fun _ _ _ => none) "migrations"
      "ALTER TABLE SALES.ORDERS DROP COLUMN DISCOUNT;".toList = .ok [] :=
  ⟨by decide,
   plain_drop_column_not_inverted.1
     "ALTER TABLE SALES.ORDERS DROP COLUMN DISCOUNT;".toList (by decide),
   plain_drop_column_not_inverted.2.1 (fun _ _ _ => none)⟩

end SnowflakeDecl
